import Mathlib

/-!
Verification of the CFC leaderboard bot (`src/bot.py`).

The development shallowly embeds the Python module: JSON values become an
inductive `Json`, Python exceptions become an `Except PyErr` result,
Python truthiness becomes `truthy`, and the three operations
`fetch_leaderboard`, `format_leaderboard_message` and `send_leaderboard`
are translated line by line.  The non-deterministic clock
(`datetime.utcnow()`) is abstracted as an explicit `UTCTime` argument, the
HTTP transport as a `FetchEnv` value describing the outcome of the single
GET request, and the messaging collaborator (`context.bot.send_message`)
as a predicate saying which calls raise.
-/

/-- Python exception kinds that the embedded code can raise. -/
inductive PyErr where
  | keyError (k : String)
  | typeError
  | valueError
  | attributeError
  | jsonError
  | netError
  | sendError
deriving DecidableEq

/-- JSON values, as produced by `response.json()`. -/
inductive Json where
  | null
  | bool (b : Bool)
  | num (n : Int)
  | str (s : String)
  | arr (xs : List Json)
  | obj (fields : List (String × Json))

/-- First-match lookup in a JSON object's field list (Python `dict` access;
dicts decoded from JSON have unique keys, so first match is the match). -/
def jlookup (fields : List (String × Json)) (k : String) : Option Json :=
  match fields with
  | [] => none
  | (k2, v) :: rest => if k2 = k then some v else jlookup rest k

/-- Python truthiness of a JSON value (`if x:`). -/
def truthy : Json → Bool
  | .null => false
  | .bool b => b
  | .num n => n != 0
  | .str s => s != ""
  | .arr xs => !xs.isEmpty
  | .obj fs => !fs.isEmpty

/-- Python `d.get(k)`: `None` when the key is absent, `AttributeError`
when the receiver is not a dict. -/
def dictGet (v : Json) (k : String) : Except PyErr Json :=
  match v with
  | .obj fs => .ok ((jlookup fs k).getD .null)
  | _ => .error .attributeError

/-- Python `v[k]` with a string key: `KeyError` when the key is absent,
`TypeError` when the receiver is not a dict. -/
def getItem (v : Json) (k : String) : Except PyErr Json :=
  match v with
  | .obj fs =>
    match jlookup fs k with
    | some u => .ok u
    | none => .error (.keyError k)
  | _ => .error .typeError

/-- Python iteration `for x in v`: lists yield elements, strings yield
one-character strings, dicts yield their keys, scalars raise `TypeError`. -/
def pyIter : Json → Except PyErr (List Json)
  | .arr xs => .ok xs
  | .str s => .ok (s.data.map fun c => .str (String.mk [c]))
  | .obj fs => .ok (fs.map fun p => .str p.1)
  | _ => .error .typeError

/-- The character of a decimal digit (arguments are always below 10). -/
def digitChar : Nat → Char
  | 0 => '0'
  | 1 => '1'
  | 2 => '2'
  | 3 => '3'
  | 4 => '4'
  | 5 => '5'
  | 6 => '6'
  | 7 => '7'
  | 8 => '8'
  | _ => '9'

/-- Decimal digits, least significant first, with enough fuel to divide
down to a single digit (the fuel is structural; `digitsRev` always passes
more fuel than there are digits). -/
def digitsRevGo : Nat → Nat → List Char
  | 0, n => [digitChar n]
  | fuel + 1, n =>
    if n < 10 then [digitChar n]
    else digitChar (n % 10) :: digitsRevGo fuel (n / 10)

/-- Decimal digits of a natural number, least significant first. -/
def digitsRev (n : Nat) : List Char :=
  digitsRevGo n n

/-- Decimal rendering of a natural number (Python `str(n)` for `n ≥ 0`). -/
def natToString (n : Nat) : String :=
  String.mk (digitsRev n).reverse

/-- Insert a thousands separator after every third character of a
least-significant-first digit list. -/
def insertCommas : List Char → List Char
  | d1 :: d2 :: d3 :: d4 :: rest => d1 :: d2 :: d3 :: ',' :: insertCommas (d4 :: rest)
  | l => l

/-- Python `f"\x7bn:,\x7d"` for an integer: decimal digits grouped in
threes with commas, a leading minus sign for negatives. -/
def commaFormat (n : Int) : String :=
  let s := String.mk (insertCommas (digitsRev n.natAbs)).reverse
  if n < 0 then "-" ++ s else s

/-- Python `str(i)` for an `int`. -/
def intToString (n : Int) : String :=
  if n < 0 then "-" ++ natToString n.natAbs else natToString n.natAbs

/-- Comma-and-space separated concatenation (the list/dict `repr` layout). -/
def joinCommaSep : List String → String
  | [] => ""
  | [s] => s
  | s :: rest => s ++ ", " ++ joinCommaSep rest

mutual

/-- Python `repr()` of a JSON value (how `str()` shows it when it is
nested inside a list or dict). -/
def pyRepr : Json → String
  | .null => "None"
  | .bool b => if b then "True" else "False"
  | .num n => intToString n
  | .str s => "\x27" ++ s ++ "\x27"
  | .arr xs => "[" ++ joinCommaSep (pyReprList xs) ++ "]"
  | .obj fs => "\x7b" ++ joinCommaSep (pyReprFields fs) ++ "\x7d"

/-- `repr` of the elements of a JSON array. -/
def pyReprList : List Json → List String
  | [] => []
  | x :: xs => pyRepr x :: pyReprList xs

/-- `repr` of the fields of a JSON object, as `key: value` pieces. -/
def pyReprFields : List (String × Json) → List String
  | [] => []
  | (k, v) :: fs => ("\x27" ++ k ++ "\x27: " ++ pyRepr v) :: pyReprFields fs

end

/-- Python `str()` of a JSON value, as interpolated by an f-string. -/
def pyStr : Json → String
  | .str s => s
  | v => pyRepr v

/-- Python `format(v, ",")` as used in `f"\x7bscore['gameScore']:,\x7d"`:
ints (and bools, which are ints) format with separators, strings raise
`ValueError`, other values raise `TypeError`. -/
def pyFormatComma : Json → Except PyErr String
  | .num n => .ok (commaFormat n)
  | .bool b => .ok (if b then "1" else "0")
  | .str _ => .error .valueError
  | _ => .error .typeError

/-- Outcome of the single `session.get(API_URL)` request:
either the transport raises (connection error, timeout), or a response
arrives with a status code and a body; `body = none` means the body is
not valid JSON, so `response.json()` raises. -/
inductive FetchEnv where
  | netError
  | response (status : Nat) (body : Option Json)

/-- The `try:` block of `fetch_leaderboard` (src/bot.py lines 34-41). -/
def fetch_try : FetchEnv → Except PyErr (Option Json)
  | .netError => .error .netError
  | .response status body =>
    if status = 200 then
      match body with
      | none => .error .jsonError
      | some data => do
        let sv ← dictGet data "success"
        if truthy sv then do
          let ts ← dictGet data "topScores"
          if truthy ts then do
            let r ← getItem data "topScores"
            pure (some r)
          else
            pure none
        else
          pure none
    else
      -- logger.error(f"API returned status ..."); falls through to `return None`
      .ok none

/-- `fetch_leaderboard` (src/bot.py lines 31-44): the `try` block wrapped
in `except Exception: logger.error(...)`, then `return None`. -/
def fetch_leaderboard (env : FetchEnv) : Except PyErr (Option Json) :=
  match fetch_try env with
  | .ok v => .ok v
  | .error _ => .ok none

/-- Medal emojis (src/bot.py lines 23-29). -/
def MEDALS : List (Nat × String) :=
  [(1, "🥇"), (2, "🥈"), (3, "🥉"), (4, "🏆"), (5, "🎖️")]

/-- `MEDALS.get(idx, '🎖️')` (src/bot.py line 51). -/
def medalFor (idx : Nat) : String :=
  (MEDALS.lookup idx).getD "🎖️"

/-- A UTC wall-clock instant, abstracting `datetime.utcnow()`. -/
structure UTCTime where
  year : Nat
  month : Nat
  day : Nat
  hour : Nat
  minute : Nat
  second : Nat

/-- Zero-pad a number to two digits (strftime `%m`, `%d`, `%H`, `%M`, `%S`). -/
def pad2 (n : Nat) : String :=
  if n < 10 then "0" ++ natToString n else natToString n

/-- Zero-pad a number to four digits (strftime `%Y`). -/
def pad4 (n : Nat) : String :=
  if n < 10 then "000" ++ natToString n
  else if n < 100 then "00" ++ natToString n
  else if n < 1000 then "0" ++ natToString n
  else natToString n

/-- `datetime.utcnow().strftime("%Y-%m-%d %H:%M:%S UTC")` (src/bot.py line 59). -/
def strftime_now (t : UTCTime) : String :=
  pad4 t.year ++ "-" ++ pad2 t.month ++ "-" ++ pad2 t.day ++ " " ++
    pad2 t.hour ++ ":" ++ pad2 t.minute ++ ":" ++ pad2 t.second ++ " UTC"

/-- The fixed header of the formatted message (src/bot.py line 48). -/
def HEADER : String := "🏆 <b>CRYPTO FIGHT CLUB - TOP 5 SCORES</b> 🏆\n\n"

/-- The trailing timestamp line (src/bot.py line 60). -/
def footerLine (now : UTCTime) : String :=
  "<i>Last updated: " ++ strftime_now now ++ "</i>"

/-- `f"\x7bscore['gameScore']:,\x7d"` (src/bot.py line 52). -/
def format_score (score : Json) : Except PyErr String := do
  let v ← getItem score "gameScore"
  pyFormatComma v

/-- `f"@\x7bscore['xUsername']\x7d" if score.get('xUsername') else
"Anonymous"` (src/bot.py line 53). -/
def render_username (score : Json) : Except PyErr String := do
  let u ← dictGet score "xUsername"
  if truthy u then do
    let v ← getItem score "xUsername"
    pure ("@" ++ pyStr v)
  else
    pure "Anonymous"

/-- One iteration of the formatting loop (src/bot.py lines 50-56): the two
lines appended for one score at 1-based index `idx`. -/
def format_entry (idx : Nat) (score : Json) : Except PyErr String := do
  let medal := medalFor idx
  let game_score ← format_score score
  let username ← render_username score
  pure (medal ++ " <b>#" ++ natToString idx ++ "</b> - <code>" ++ game_score ++
    "</code>\n" ++ "   " ++ username ++ "\n\n")

/-- The whole `for idx, score in enumerate(scores, 1)` loop, accumulating
the appended text. -/
def format_entries : List Json → Nat → Except PyErr String
  | [], _ => pure ""
  | s :: rest, idx => do
    let line ← format_entry idx s
    let more ← format_entries rest (idx + 1)
    pure (line ++ more)

/-- `format_leaderboard_message` (src/bot.py lines 46-62), with the clock
passed explicitly. -/
def format_leaderboard_message (now : UTCTime) (scores : Json) : Except PyErr String := do
  let items ← pyIter scores
  let body ← format_entries items 1
  pure (HEADER ++ body ++ footerLine now)

/-- One invocation of the messaging collaborator, as observed from
outside: target chat, text, and `parse_mode` (`none` = plain). -/
structure SendCall where
  chat_id : String
  text : String
  parse_mode : Option String
deriving DecidableEq

/-- `context.bot.send_message(...)`: the collaborator either delivers or
raises, according to the behaviour `sendRaises`. -/
def send_message (sendRaises : SendCall → Bool) (call : SendCall) : Except PyErr Unit :=
  if sendRaises call then .error .sendError else .ok ()

/-- The fixed fallback text (src/bot.py line 82). -/
def ERROR_MESSAGE : String := "❌ Could not fetch leaderboard data. Please try again later."

/-- `target_chat_id = chat_id or CHAT_ID` (src/bot.py line 66): Python
`or` takes the right operand when the left is falsy (`None` or `""`). -/
def resolve_target (CHAT_ID : String) (chat_id : Option String) : String :=
  match chat_id with
  | some c => if c = "" then CHAT_ID else c
  | none => CHAT_ID

/-- The `else:` branch of `send_leaderboard` (src/bot.py lines 81-89):
one send of the fallback text, any send error caught and logged. -/
def send_fallback (target : String) (sendRaises : SendCall → Bool) : List SendCall :=
  let call : SendCall := ⟨target, ERROR_MESSAGE, none⟩
  match send_message sendRaises call with
  | .ok _ => [call]
  | .error _ => [call]

/-- Modelled from the spec (amended): the fetch succeeds exactly when the
status is 200 and the body is a JSON object whose `success` field is
truthy and whose `topScores` field is truthy; the snapshot is then
exactly the `topScores` value. -/
def specFetchResult : FetchEnv → Option Json
  | .netError => none
  | .response status body =>
    if status = 200 then
      match body with
      | some (.obj fs) =>
        match jlookup fs "success", jlookup fs "topScores" with
        | some sv, some ts => if truthy sv && truthy ts then some ts else none
        | _, _ => none
      | _ => none
    else none

/-- The claim's success condition, verbatim: HTTP 200, structured body,
`success` equal to boolean `true`, and `topScores` a non-empty list. -/
def claimedFetchSuccess : FetchEnv → Bool
  | .netError => false
  | .response status body =>
    if status = 200 then
      match body with
      | some (.obj fs) =>
        (match jlookup fs "success" with
         | some (.bool true) => true
         | _ => false)
        && (match jlookup fs "topScores" with
            | some (.arr ts) => !ts.isEmpty
            | _ => false)
      | _ => false
    else false

/-- `send_leaderboard` (src/bot.py lines 64-89).  The result is the list
of collaborator calls made during the run; a raised exception escaping
the function is an `Except.error`.  Note that the
`format_leaderboard_message` call (line 71) is outside both `try` blocks. -/
def send_leaderboard (CHAT_ID : String) (chat_id : Option String) (env : FetchEnv)
    (now : UTCTime) (sendRaises : SendCall → Bool) : Except PyErr (List SendCall) := do
  let target_chat_id := resolve_target CHAT_ID chat_id
  let scores ← fetch_leaderboard env
  match scores with
  | some s =>
    if truthy s then do
      let message ← format_leaderboard_message now s
      let call : SendCall := ⟨target_chat_id, message, some "HTML"⟩
      match send_message sendRaises call with
      | .ok _ => pure [call]
      | .error _ => pure [call]
    else
      pure (send_fallback target_chat_id sendRaises)
  | none =>
    pure (send_fallback target_chat_id sendRaises)

/-- A well-formed score entry, following the spec's data model: a
numeric score and an optional display name.  `xUsername = none` encodes
an absent field, `some none` a JSON `null`, `some (some s)` a string. -/
structure Entry where
  gameScore : Int
  xUsername : Option (Option String)

/-- The JSON object carrying an `Entry`, as the API would deliver it. -/
def Entry.toJson (e : Entry) : Json :=
  .obj ([("gameScore", .num e.gameScore)] ++
    (match e.xUsername with
     | none => []
     | some none => [("xUsername", .null)]
     | some (some s) => [("xUsername", .str s)]))

/-- Modelled from the spec (amended): the display-name rendering — a
non-empty name is prefixed with `@`; an absent, null, or empty name
renders the literal `Anonymous`. -/
def displayNameRendering : Option (Option String) → String
  | some (some s) => if s = "" then "Anonymous" else "@" ++ s
  | _ => "Anonymous"

/-- The rank line the formatter emits for entry `e` at 1-based rank
`idx`: marker glyph, rank number, comma-grouped score. -/
def rankLine (idx : Nat) (e : Entry) : String :=
  medalFor idx ++ " <b>#" ++ natToString idx ++ "</b> - <code>" ++
    commaFormat e.gameScore ++ "</code>"

/-- The indented display-name line the formatter emits for entry `e`. -/
def nameLine (e : Entry) : String :=
  "   " ++ displayNameRendering e.xUsername

/-- The full two-line block for one entry, with its blank separator line. -/
def entryBlock (idx : Nat) (e : Entry) : String :=
  rankLine idx e ++ "\n" ++ nameLine e ++ "\n\n"

/-- The concatenated per-entry blocks, ranks counted from `idx`. -/
def entryBlocks : List Entry → Nat → String
  | [], _ => ""
  | e :: es, idx => entryBlock idx e ++ entryBlocks es (idx + 1)

/-- Split a character list into newline-separated lines (`"\n"`-splitting;
a trailing newline yields a trailing empty line). -/
def splitLines : List Char → List (List Char)
  | [] => [[]]
  | c :: cs =>
    let r := splitLines cs
    if c = '\n' then [] :: r
    else
      match r with
      | [] => [[c]]
      | l :: ls => (c :: l) :: ls

/-- The three physical lines contributed by each entry: rank line,
name line, blank separator. -/
def entryLines : List Entry → Nat → List (List Char)
  | [], _ => []
  | e :: es, idx =>
    (rankLine idx e).data :: (nameLine e).data :: [] :: entryLines es (idx + 1)

/-- An entry whose display name contains no newline, so that it occupies
exactly one physical line of the message. -/
def Entry.validName (e : Entry) : Prop :=
  match e.xUsername with
  | some (some s) => '\n' ∉ s.data
  | _ => True

/-- Substring containment, as explicit decomposition. -/
def containsStr (s t : String) : Prop :=
  ∃ a b, s = a ++ (t ++ b)

/-! ## Theorems about the fetcher -/

/-- Helper: `fetch_leaderboard` agrees with the direct functional
description `specFetchResult` on every fetch outcome. -/
theorem fetch_eq_spec (env : FetchEnv) :
    fetch_leaderboard env = .ok (specFetchResult env) := by
  cases env with
  | netError => rfl
  | response status body =>
    unfold fetch_leaderboard fetch_try specFetchResult
    by_cases h : status = 200
    · simp only [h, if_pos rfl]
      match body with
      | none => rfl
      | some .null => rfl
      | some (.bool b) => rfl
      | some (.num n) => rfl
      | some (.str s) => rfl
      | some (.arr xs) => rfl
      | some (.obj fs) =>
        simp only [dictGet, getItem, Bind.bind, Except.bind]
        cases hsv : jlookup fs "success" with
        | none => simp [truthy, Pure.pure, Except.pure]
        | some sv =>
          cases htv : truthy sv with
          | false =>
            cases hts : jlookup fs "topScores" <;>
              simp [hsv, htv, Pure.pure, Except.pure, Option.getD]
          | true =>
            cases hts : jlookup fs "topScores" with
            | none => simp [hsv, htv, truthy, Pure.pure, Except.pure]
            | some ts =>
              cases htt : truthy ts <;>
                simp [hsv, hts, htv, htt, Pure.pure, Except.pure]
    · simp [h]

/-- Claim C2: for every failure mode — non-200 status, malformed
(non-JSON) body, success flag false or absent, missing `topScores`,
network error or timeout — `fetch_leaderboard` raises no exception, and
each of the five independently listed cases (HTTP 500; HTTP 200 with
`success:false`; HTTP 200 with missing `topScores`; non-JSON body;
network timeout) returns the absent result `none`. -/
theorem fetch_absent_on_every_failure :
    (∀ env : FetchEnv, ∃ v, fetch_leaderboard env = .ok v) ∧
    fetch_leaderboard (.response 500 (some (.obj
      [("success", Json.bool true), ("topScores", Json.arr [Json.num 7])]))) = .ok none ∧
    fetch_leaderboard (.response 200 (some (.obj
      [("success", Json.bool false), ("topScores", Json.arr [Json.num 7])]))) = .ok none ∧
    fetch_leaderboard (.response 200 (some (.obj
      [("success", Json.bool true)]))) = .ok none ∧
    fetch_leaderboard (.response 200 none) = .ok none ∧
    fetch_leaderboard .netError = .ok none := by
  refine ⟨fun env => ?_, rfl, rfl, rfl, rfl, rfl⟩
  unfold fetch_leaderboard
  cases fetch_try env with
  | ok v => exact ⟨v, rfl⟩
  | error e => exact ⟨none, rfl⟩

/-- Claim C3, counterexample: the claimed success condition demands a
*boolean* `success` flag equal to `true`, but the code tests truthiness:
with `success = 1` (and a non-empty `topScores`) the fetch returns a
snapshot even though the claimed condition does not hold, so the claimed
equivalence is false. -/
theorem fetch_iff_claimed_cond_cex :
    fetch_leaderboard (.response 200 (some (.obj
      [("success", Json.num 1), ("topScores", Json.arr [Json.num 7])])))
      = .ok (some (Json.arr [Json.num 7])) ∧
    claimedFetchSuccess (.response 200 (some (.obj
      [("success", Json.num 1), ("topScores", Json.arr [Json.num 7])]))) = false :=
  ⟨rfl, rfl⟩

/-- Claim C3 (amended): `fetch_leaderboard` returns a snapshot exactly
when the status is 200 and the body is a JSON object whose `success`
field is truthy and whose `topScores` field is truthy (for a list, this
means non-empty); the snapshot is then exactly the `topScores` value of
the body, and in every other case the result is absent.  Stated as a
functional refinement: the fetcher never raises and computes
`specFetchResult`. -/
theorem fetch_returns_exactly_spec (env : FetchEnv) :
    fetch_leaderboard env = .ok (specFetchResult env) :=
  fetch_eq_spec env

/-- Claim C9: the fetcher accepts any truthy `success` value, boolean or
not — an HTTP 200 object body with a truthy `success` and a non-empty
`topScores` list yields exactly that list as the snapshot. -/
theorem fetch_accepts_truthy_success (sv : Json) (ts : List Json)
    (hsv : truthy sv = true) (hts : ts ≠ []) :
    fetch_leaderboard (.response 200 (some (.obj
      [("success", sv), ("topScores", Json.arr ts)])))
      = .ok (some (Json.arr ts)) := by
  rw [fetch_eq_spec]
  have h1 : jlookup [("success", sv), ("topScores", Json.arr ts)] "success" = some sv := rfl
  have h2 : jlookup [("success", sv), ("topScores", Json.arr ts)] "topScores"
      = some (Json.arr ts) := rfl
  have h3 : truthy (Json.arr ts) = true := by
    cases ts with
    | nil => exact absurd rfl hts
    | cons a l => rfl
  simp [specFetchResult, h1, h2, hsv, h3]

/-- Witness for C9 at a concrete input: the string `"false"` is truthy in
Python, so an HTTP 200 body with `success = "false"` still yields the
snapshot. -/
theorem fetch_accepts_truthy_success_witness :
    fetch_leaderboard (.response 200 (some (.obj
      [("success", Json.str "false"), ("topScores", Json.arr [Json.num 3])])))
      = .ok (some (Json.arr [Json.num 3])) :=
  fetch_accepts_truthy_success (Json.str "false") [Json.num 3] rfl (by simp)

/-! ## Character-level helper lemmas -/

/-- Default-case digit characters, with a symbolic remainder. -/
theorem digitChar_default_ne_newline (d : Nat) : digitChar (d + 9) ≠ '\n' := by
  show ('9' : Char) ≠ '\n'
  decide

/-- Digit characters are never newlines. -/
theorem digitChar_ne_newline (d : Nat) : digitChar d ≠ '\n' := by
  rcases d with _|_|_|_|_|_|_|_|_|d
  case succ.succ.succ.succ.succ.succ.succ.succ.succ =>
    exact digitChar_default_ne_newline d
  all_goals decide

/-- The digits of a number contain no newline. -/
theorem noNL_digitsRevGo (fuel n : Nat) : '\n' ∉ digitsRevGo fuel n := by
  induction fuel generalizing n with
  | zero =>
    simp only [digitsRevGo, List.mem_singleton]
    exact fun hc => digitChar_ne_newline n hc.symm
  | succ fuel ih =>
    rw [digitsRevGo]
    split_ifs with h
    · simp only [List.mem_singleton]
      exact fun hc => digitChar_ne_newline n hc.symm
    · intro hmem
      rcases List.mem_cons.mp hmem with h1 | h2
      · exact digitChar_ne_newline _ h1.symm
      · exact ih (n / 10) h2

/-- The digits of a number contain no newline. -/
theorem noNL_digitsRev (n : Nat) : '\n' ∉ digitsRev n :=
  noNL_digitsRevGo n n

/-- Every character that comma-insertion produces is a comma or came
from the input.  -/
theorem mem_insertCommas {c : Char} : ∀ {l : List Char}, c ∈ insertCommas l → c = ',' ∨ c ∈ l
  | [], hc => .inr hc
  | [_], hc => .inr hc
  | [_, _], hc => .inr hc
  | [_, _, _], hc => .inr hc
  | d1 :: d2 :: d3 :: d4 :: rest, hc => by
    have hc2 : c ∈ d1 :: d2 :: d3 :: ',' :: insertCommas (d4 :: rest) := hc
    simp only [List.mem_cons] at hc2
    rcases hc2 with h | h | h | h | h
    · exact .inr (by simp [h])
    · exact .inr (by simp [h])
    · exact .inr (by simp [h])
    · exact .inl h
    · rcases mem_insertCommas h with h5 | h5
      · exact .inl h5
      · exact .inr (by simp [List.mem_cons.mp h5])
termination_by l => l.length

/-- Inserting comma separators introduces no newline. -/
theorem noNL_insertCommas (l : List Char) (h : '\n' ∉ l) : '\n' ∉ insertCommas l := by
  intro hc
  rcases mem_insertCommas hc with h1 | h1
  · exact absurd h1 (by decide)
  · exact h h1

theorem noNL_natToString (n : Nat) : '\n' ∉ (natToString n).data := by
  unfold natToString
  simp [noNL_digitsRev n]

theorem noNL_commaFormat (n : Int) : '\n' ∉ (commaFormat n).data := by
  unfold commaFormat
  have h1 : '\n' ∉ (insertCommas (digitsRev n.natAbs)).reverse := by
    simp [noNL_insertCommas _ (noNL_digitsRev n.natAbs)]
  split_ifs with h
  · simp only [String.data_append]
    intro hm
    rcases List.mem_append.mp hm with hc | hc
    · simp at hc
    · exact h1 hc
  · exact h1

/-- Ranks six and beyond are off the medal table. -/
theorem medalFor_add_six (n : Nat) : medalFor (n + 6) = "🎖️" := by
  have h1 : (n + 6 == 1) = false := by rw [beq_eq_false_iff_ne]; omega
  have h2 : (n + 6 == 2) = false := by rw [beq_eq_false_iff_ne]; omega
  have h3 : (n + 6 == 3) = false := by rw [beq_eq_false_iff_ne]; omega
  have h4 : (n + 6 == 4) = false := by rw [beq_eq_false_iff_ne]; omega
  have h5 : (n + 6 == 5) = false := by rw [beq_eq_false_iff_ne]; omega
  simp [medalFor, MEDALS, List.lookup, h1, h2, h3, h4, h5]

/-- The marker glyph is always one of the five configured emojis. -/
theorem medalFor_cases (idx : Nat) :
    medalFor idx = "🥇" ∨ medalFor idx = "🥈" ∨ medalFor idx = "🥉" ∨
      medalFor idx = "🏆" ∨ medalFor idx = "🎖️" := by
  rcases idx with _|_|_|_|_|_|n
  · exact .inr (.inr (.inr (.inr rfl)))
  · exact .inl rfl
  · exact .inr (.inl rfl)
  · exact .inr (.inr (.inl rfl))
  · exact .inr (.inr (.inr (.inl rfl)))
  · exact .inr (.inr (.inr (.inr rfl)))
  · exact .inr (.inr (.inr (.inr (medalFor_add_six n))))

theorem noNL_medalFor (idx : Nat) : '\n' ∉ (medalFor idx).data := by
  rcases medalFor_cases idx with h | h | h | h | h <;> rw [h] <;> decide

theorem noNL_pad2 (n : Nat) : '\n' ∉ (pad2 n).data := by
  unfold pad2
  split_ifs <;> simp [String.data_append, noNL_natToString]

theorem noNL_pad4 (n : Nat) : '\n' ∉ (pad4 n).data := by
  unfold pad4
  split_ifs <;> simp [String.data_append, noNL_natToString]

theorem noNL_strftime (t : UTCTime) : '\n' ∉ (strftime_now t).data := by
  unfold strftime_now
  simp only [String.data_append, List.mem_append]
  push_neg
  refine ⟨⟨⟨⟨⟨⟨⟨⟨⟨⟨⟨noNL_pad4 t.year, by decide⟩, noNL_pad2 t.month⟩, by decide⟩,
    noNL_pad2 t.day⟩, by decide⟩, noNL_pad2 t.hour⟩, by decide⟩, noNL_pad2 t.minute⟩,
    by decide⟩, noNL_pad2 t.second⟩, by decide⟩

theorem noNL_footerLine (t : UTCTime) : '\n' ∉ (footerLine t).data := by
  unfold footerLine
  simp only [String.data_append, List.mem_append]
  push_neg
  exact ⟨⟨by decide, noNL_strftime t⟩, by decide⟩

theorem noNL_rankLine (idx : Nat) (e : Entry) : '\n' ∉ (rankLine idx e).data := by
  unfold rankLine
  simp only [String.data_append, List.mem_append]
  push_neg
  exact ⟨⟨⟨⟨⟨noNL_medalFor idx, by decide⟩, noNL_natToString idx⟩, by decide⟩,
    noNL_commaFormat e.gameScore⟩, by decide⟩

theorem noNL_displayNameRendering (u : Option (Option String))
    (h : ∀ s, u = some (some s) → '\n' ∉ s.data) :
    '\n' ∉ (displayNameRendering u).data := by
  match u with
  | none => decide
  | some none => decide
  | some (some s) =>
    rw [show displayNameRendering (some (some s))
        = if s = "" then "Anonymous" else "@" ++ s from rfl]
    split_ifs with hs
    · decide
    · simp only [String.data_append, List.mem_append]
      push_neg
      exact ⟨by decide, h s rfl⟩

theorem noNL_nameLine (e : Entry) (h : e.validName) : '\n' ∉ (nameLine e).data := by
  unfold nameLine
  simp only [String.data_append, List.mem_append]
  push_neg
  refine ⟨by decide, noNL_displayNameRendering e.xUsername ?_⟩
  intro s hs
  unfold Entry.validName at h
  rw [hs] at h
  exact h

/-! ## Line-splitting lemmas -/

/-- Splitting a newline-free prefix followed by a newline yields that
prefix as one whole line. -/
theorem splitLines_noNL_newline (a rest : List Char) (h : '\n' ∉ a) :
    splitLines (a ++ '\n' :: rest) = a :: splitLines rest := by
  induction a with
  | nil =>
    simp only [List.nil_append]
    rw [splitLines]
    simp
  | cons c a ih =>
    have hc : c ≠ '\n' := fun hc => h (hc ▸ List.mem_cons_self c a)
    have ha : '\n' ∉ a := fun hm => h (List.mem_cons_of_mem c hm)
    rw [List.cons_append, splitLines]
    simp only [ih ha, if_neg hc]

/-- Splitting a newline-free list yields a single line. -/
theorem splitLines_noNL (a : List Char) (h : '\n' ∉ a) :
    splitLines a = [a] := by
  induction a with
  | nil => rfl
  | cons c a ih =>
    have hc : c ≠ '\n' := fun hc => h (hc ▸ List.mem_cons_self c a)
    have ha : '\n' ∉ a := fun hm => h (List.mem_cons_of_mem c hm)
    rw [splitLines]
    simp only [ih ha, if_neg hc]

/-! ## Formatter refinement lemmas -/

/-- Looking up `gameScore` in the JSON object of an entry. -/
theorem getItem_toJson_gameScore (e : Entry) :
    getItem e.toJson "gameScore" = .ok (.num e.gameScore) := by
  unfold Entry.toJson getItem
  match h : e.xUsername with
  | none => rfl
  | some none => rfl
  | some (some s) => rfl

/-- Rendering the username of a well-formed entry. -/
theorem render_username_toJson (e : Entry) :
    render_username e.toJson = .ok (displayNameRendering e.xUsername) := by
  unfold Entry.toJson render_username
  match h : e.xUsername with
  | none => rfl
  | some none => rfl
  | some (some s) =>
    show (do
      let u ← dictGet (Json.obj [("gameScore", .num e.gameScore), ("xUsername", .str s)]) "xUsername"
      if truthy u then do
        let v ← getItem (Json.obj [("gameScore", .num e.gameScore), ("xUsername", .str s)]) "xUsername"
        pure ("@" ++ pyStr v)
      else
        pure "Anonymous") = .ok (displayNameRendering (some (some s)))
    rw [show dictGet (Json.obj [("gameScore", .num e.gameScore), ("xUsername", .str s)]) "xUsername"
        = .ok (.str s) from rfl]
    rw [show displayNameRendering (some (some s))
        = if s = "" then "Anonymous" else "@" ++ s from rfl]
    by_cases hs : s = ""
    · subst hs
      rfl
    · have ht : truthy (.str s) = true := by
        simp [truthy, hs]
      simp only [Bind.bind, Except.bind, ht, if_pos rfl, if_neg hs]
      rfl

/-- The formatting loop body produces exactly the entry block. -/
theorem format_entry_toJson (idx : Nat) (e : Entry) :
    format_entry idx e.toJson = .ok (entryBlock idx e) := by
  unfold format_entry format_score
  rw [show (do
        let v ← getItem e.toJson "gameScore"
        pyFormatComma v : Except PyErr String)
      = pyFormatComma (.num e.gameScore) by rw [getItem_toJson_gameScore]; rfl]
  rw [show pyFormatComma (.num e.gameScore) = .ok (commaFormat e.gameScore) from rfl]
  rw [render_username_toJson]
  show Except.ok _ = _
  unfold entryBlock rankLine nameLine
  congr 1
  simp only [String.append_assoc]
  congr 2

/-- Character-level shape of one entry block. -/
theorem entryBlock_data (idx : Nat) (e : Entry) :
    (entryBlock idx e).data
      = (rankLine idx e).data ++ '\n' :: ((nameLine e).data ++ ['\n', '\n']) := by
  unfold entryBlock
  simp only [String.data_append]
  simp [List.append_assoc]

theorem splitLines_cons_newline (rest : List Char) :
    splitLines ('\n' :: rest) = [] :: splitLines rest := by
  rw [splitLines]
  simp

/-- Splitting the concatenated entry blocks yields the per-entry line
triples, then whatever the trailing text splits into. -/
theorem splitLines_entryBlocks (es : List Entry) (idx : Nat) (tail : List Char)
    (h : ∀ e ∈ es, e.validName) :
    splitLines ((entryBlocks es idx).data ++ tail)
      = entryLines es idx ++ splitLines tail := by
  induction es generalizing idx with
  | nil =>
    rw [show entryBlocks [] idx = "" from rfl]
    simp [entryLines]
  | cons e es ih =>
    rw [show entryBlocks (e :: es) idx = entryBlock idx e ++ entryBlocks es (idx + 1) from rfl]
    rw [String.data_append, entryBlock_data]
    simp only [List.append_assoc, List.cons_append, List.nil_append]
    rw [splitLines_noNL_newline _ _ (noNL_rankLine idx e)]
    rw [splitLines_noNL_newline _ _ (noNL_nameLine e (h e (List.mem_cons_self e es)))]
    rw [splitLines_cons_newline]
    rw [ih (idx + 1) (fun e2 he2 => h e2 (List.mem_cons_of_mem e he2))]
    rfl

/-- The formatting loop over well-formed entries succeeds and produces
the concatenated blocks. -/
theorem format_entries_toJson (es : List Entry) (idx : Nat) :
    format_entries (es.map Entry.toJson) idx = .ok (entryBlocks es idx) := by
  induction es generalizing idx with
  | nil => rfl
  | cons e es ih =>
    rw [List.map_cons]
    show (do
      let line ← format_entry idx e.toJson
      let more ← format_entries (es.map Entry.toJson) (idx + 1)
      pure (line ++ more) : Except PyErr String) = _
    rw [format_entry_toJson, ih]
    rfl

/-- The formatter on a well-formed snapshot succeeds and produces
header, blocks and footer. -/
theorem format_message_toJson (now : UTCTime) (es : List Entry) :
    format_leaderboard_message now (.arr (es.map Entry.toJson))
      = .ok (HEADER ++ entryBlocks es 1 ++ footerLine now) := by
  unfold format_leaderboard_message
  show (do
    let items ← pyIter (.arr (es.map Entry.toJson))
    let body ← format_entries items 1
    pure (HEADER ++ body ++ footerLine now) : Except PyErr String) = _
  rw [show pyIter (.arr (es.map Entry.toJson)) = .ok (es.map Entry.toJson) from rfl]
  show (do
    let body ← format_entries (es.map Entry.toJson) 1
    pure (HEADER ++ body ++ footerLine now) : Except PyErr String) = _
  rw [format_entries_toJson]
  rfl

/-- Line decomposition of the whole formatted message. -/
theorem format_message_splitLines (now : UTCTime) (es : List Entry)
    (h : ∀ e ∈ es, e.validName) :
    splitLines (HEADER ++ entryBlocks es 1 ++ footerLine now).data
      = ("🏆 <b>CRYPTO FIGHT CLUB - TOP 5 SCORES</b> 🏆").data :: [] ::
        (entryLines es 1 ++ [(footerLine now).data]) := by
  rw [String.data_append, String.data_append, List.append_assoc]
  show splitLines (("🏆 <b>CRYPTO FIGHT CLUB - TOP 5 SCORES</b> 🏆").data ++
    '\n' :: '\n' :: ((entryBlocks es 1).data ++ (footerLine now).data)) = _
  rw [splitLines_noNL_newline _ _ (by decide)]
  rw [splitLines_cons_newline]
  rw [splitLines_entryBlocks es 1 _ h]
  rw [splitLines_noNL _ (noNL_footerLine now)]

/-- Each entry contributes three physical lines. -/
theorem entryLines_length (es : List Entry) (idx : Nat) :
    (entryLines es idx).length = 3 * es.length := by
  induction es generalizing idx with
  | nil => rfl
  | cons e es ih =>
    show (entryLines es (idx + 1)).length + 1 + 1 + 1 = 3 * (es.length + 1)
    rw [ih (idx + 1)]
    ring

/-- The rank line of the `i`-th entry sits at position `3 * i` of the
entry-lines block (positions counted from its start). -/
theorem entryLines_get (es : List Entry) (idx : Nat) (i : Nat) (h : i < es.length)
    (T : List (List Char)) :
    (entryLines es idx ++ T).get? (3 * i)
      = some (rankLine (idx + i) (es.get ⟨i, h⟩)).data := by
  induction es generalizing idx i with
  | nil => exact absurd h (by simp)
  | cons e es ih =>
    cases i with
    | zero => rfl
    | succ j =>
      have hj : j < es.length := by simpa using Nat.lt_of_succ_lt_succ h
      have h3 : 3 * (j + 1) = 3 * j + 1 + 1 + 1 := by ring
      rw [h3]
      show (entryLines es (idx + 1) ++ T).get? (3 * j)
          = some (rankLine (idx + (j + 1)) (es.get ⟨j, hj⟩)).data
      have harith : idx + (j + 1) = idx + 1 + j := by omega
      rw [harith, ih (idx + 1) j hj]

/-! ## Substring containment lemmas -/

theorem containsStr_here (a t b : String) : containsStr (a ++ (t ++ b)) t :=
  ⟨a, b, rfl⟩

theorem containsStr_append_left (x y t : String) (h : containsStr y t) :
    containsStr (x ++ y) t := by
  obtain ⟨a, b, rfl⟩ := h
  exact ⟨x ++ a, b, by rw [String.append_assoc]⟩

theorem containsStr_append_right (x y t : String) (h : containsStr x t) :
    containsStr (x ++ y) t := by
  obtain ⟨a, b, rfl⟩ := h
  exact ⟨a, b ++ y, by rw [String.append_assoc, String.append_assoc]⟩

/-- An entry block contains the comma-grouped score. -/
theorem entryBlock_contains_score (idx : Nat) (e : Entry) :
    containsStr (entryBlock idx e) (commaFormat e.gameScore) := by
  refine ⟨medalFor idx ++ " <b>#" ++ natToString idx ++ "</b> - <code>",
    "</code>\n" ++ ("   " ++ (displayNameRendering e.xUsername ++ "\n\n")), ?_⟩
  unfold entryBlock rankLine nameLine
  simp [String.append_assoc]

/-- An entry block contains the rendered display name. -/
theorem entryBlock_contains_name (idx : Nat) (e : Entry) :
    containsStr (entryBlock idx e) (displayNameRendering e.xUsername) := by
  refine ⟨medalFor idx ++ " <b>#" ++ natToString idx ++ "</b> - <code>" ++
    commaFormat e.gameScore ++ "</code>" ++ "\n" ++ "   ",
    "\n\n", ?_⟩
  unfold entryBlock rankLine nameLine
  simp [String.append_assoc]
  rw [← String.append_assoc "</code>\n" "   "]
  rw [show ("</code>\n" ++ "   " : String) = "</code>\n   " from rfl]

/-- Whatever one block contains, the concatenation of the blocks of a
list containing its entry contains. -/
theorem entryBlocks_contains (es : List Entry) (idx : Nat) (e : Entry) (he : e ∈ es)
    (t : String) (h : ∀ k, containsStr (entryBlock k e) t) :
    containsStr (entryBlocks es idx) t := by
  induction es generalizing idx with
  | nil => exact absurd he (by simp)
  | cons e2 es ih =>
    rw [show entryBlocks (e2 :: es) idx = entryBlock idx e2 ++ entryBlocks es (idx + 1) from rfl]
    rcases List.mem_cons.mp he with h2 | h2
    · subst h2
      exact containsStr_append_right _ _ _ (h idx)
    · exact containsStr_append_left _ _ _ (ih (idx + 1) h2)

/-! ## Theorems about the formatter -/

/-- Claim C4: for every valid non-empty snapshot the formatted message
splits into a header line, a blank line, then per entry — in snapshot
order — a rank line, a name line and a blank line, and finally a trailing
timestamp line `<i>Last updated: YYYY-MM-DD HH:MM:SS UTC</i>`; the rank
line of the `i`-th entry sits at line `2 + 3i` and carries its
comma-grouped score (`12345` renders as `"12,345"`); and for the
concrete snapshot `[(1000000, alice), (500, null)]` the output carries
`1,000,000` then `@alice` then `500` then `Anonymous`, in that order,
before the trailing timestamp line. -/
theorem format_rank_lines_and_scenario :
    (∀ (now : UTCTime) (es : List Entry), es ≠ [] → (∀ e ∈ es, e.validName) →
      ∃ out, format_leaderboard_message now (.arr (es.map Entry.toJson)) = .ok out ∧
        splitLines out.data
          = ("🏆 <b>CRYPTO FIGHT CLUB - TOP 5 SCORES</b> 🏆").data :: [] ::
            (entryLines es 1 ++ [(footerLine now).data]) ∧
        (splitLines out.data).length = 3 * es.length + 3 ∧
        (∀ i (hi : i < es.length),
          (splitLines out.data).get? (2 + 3 * i)
            = some (rankLine (1 + i) (es.get ⟨i, hi⟩)).data) ∧
        footerLine now = "<i>Last updated: " ++ strftime_now now ++ "</i>") ∧
    commaFormat 12345 = "12,345" ∧
    format_leaderboard_message ⟨2025, 1, 2, 3, 4, 5⟩ (.arr
      [.obj [("gameScore", .num 1000000), ("xUsername", .str "alice")],
       .obj [("gameScore", .num 500), ("xUsername", .null)]])
      = .ok ("🏆 <b>CRYPTO FIGHT CLUB - TOP 5 SCORES</b> 🏆\n\n🥇 <b>#1</b> - <code>" ++
        ("1,000,000" ++ ("</code>\n   " ++ ("@alice" ++ ("\n\n🥈 <b>#2</b> - <code>" ++
        ("500" ++ ("</code>\n   " ++ ("Anonymous" ++
        "\n\n<i>Last updated: 2025-01-02 03:04:05 UTC</i>")))))))) := by
  refine ⟨?_, rfl, rfl⟩
  intro now es _hne hv
  refine ⟨HEADER ++ entryBlocks es 1 ++ footerLine now, format_message_toJson now es,
    format_message_splitLines now es hv, ?_, ?_, rfl⟩
  · rw [format_message_splitLines now es hv]
    simp [entryLines_length]
  · intro i hi
    rw [format_message_splitLines now es hv]
    have h2 : 2 + 3 * i = 3 * i + 1 + 1 := by omega
    rw [h2]
    rw [List.get?_cons_succ, List.get?_cons_succ]
    exact entryLines_get es 1 i hi [(footerLine now).data]

/-- Witness for C4 at a concrete non-empty snapshot. -/
theorem format_rank_lines_witness :
    ∃ out, format_leaderboard_message ⟨2024, 12, 31, 23, 59, 59⟩
        (.arr ([⟨42, some (some "bob")⟩, ⟨7, none⟩].map (Entry.toJson)))
        = .ok out ∧
      splitLines out.data
        = ("🏆 <b>CRYPTO FIGHT CLUB - TOP 5 SCORES</b> 🏆").data :: [] ::
          (entryLines [⟨42, some (some "bob")⟩, ⟨7, none⟩] 1 ++
            [(footerLine ⟨2024, 12, 31, 23, 59, 59⟩).data]) ∧
      (splitLines out.data).length = 3 * ([⟨42, some (some "bob")⟩, ⟨7, none⟩] : List Entry).length + 3 ∧
      (∀ i (hi : i < ([⟨42, some (some "bob")⟩, ⟨7, none⟩] : List Entry).length),
        (splitLines out.data).get? (2 + 3 * i)
          = some (rankLine (1 + i) (([⟨42, some (some "bob")⟩, ⟨7, none⟩] : List Entry).get ⟨i, hi⟩)).data) ∧
      footerLine ⟨2024, 12, 31, 23, 59, 59⟩
        = "<i>Last updated: " ++ strftime_now ⟨2024, 12, 31, 23, 59, 59⟩ ++ "</i>" :=
  format_rank_lines_and_scenario.1 ⟨2024, 12, 31, 23, 59, 59⟩
    [⟨42, some (some "bob")⟩, ⟨7, none⟩] (by simp)
    (by intro e he; fin_cases he <;> simp [Entry.validName])

/-- A rank line starts with its marker glyph. -/
theorem rankLine_data_medal (k : Nat) (e : Entry) :
    (rankLine k e).data
      = (medalFor k).data ++
        (" <b>#" ++ (natToString k ++ ("</b> - <code>" ++
          (commaFormat e.gameScore ++ "</code>")))).data := by
  simp [rankLine, String.data_append, List.append_assoc]

/-- Claim C6: ranks one to four are marked with four pairwise distinct
fixed glyphs, every rank five or greater is marked with the one shared
generic glyph, and the glyph of rank `i` opens the rank line that the
formatted message carries for the `i`-th entry. -/
theorem medal_glyph_assignment :
    (medalFor 1 = "🥇" ∧ medalFor 2 = "🥈" ∧ medalFor 3 = "🥉" ∧ medalFor 4 = "🏆") ∧
    (medalFor 1 ≠ medalFor 2 ∧ medalFor 1 ≠ medalFor 3 ∧ medalFor 1 ≠ medalFor 4 ∧
      medalFor 2 ≠ medalFor 3 ∧ medalFor 2 ≠ medalFor 4 ∧ medalFor 3 ≠ medalFor 4) ∧
    (∀ n, 5 ≤ n → medalFor n = "🎖️") ∧
    (∀ (now : UTCTime) (es : List Entry), (∀ e ∈ es, e.validName) →
      ∀ i, i < es.length →
        ∃ out rest, format_leaderboard_message now (.arr (es.map Entry.toJson)) = .ok out ∧
          (splitLines out.data).get? (2 + 3 * i) = some ((medalFor (1 + i)).data ++ rest)) := by
  refine ⟨⟨rfl, rfl, rfl, rfl⟩,
    ⟨by decide, by decide, by decide, by decide, by decide, by decide⟩, ?_, ?_⟩
  · intro n hn
    rcases Nat.exists_eq_add_of_le hn with ⟨k, rfl⟩
    cases k with
    | zero => rfl
    | succ k =>
      have h6 : 5 + (k + 1) = k + 6 := by omega
      rw [h6]
      exact medalFor_add_six k
  · intro now es hv i hi
    refine ⟨HEADER ++ entryBlocks es 1 ++ footerLine now,
      (" <b>#" ++ (natToString (1 + i) ++ ("</b> - <code>" ++
        (commaFormat (es.get ⟨i, hi⟩).gameScore ++ "</code>")))).data,
      format_message_toJson now es, ?_⟩
    rw [format_message_splitLines now es hv]
    have h2 : 2 + 3 * i = 3 * i + 1 + 1 := by omega
    rw [h2, List.get?_cons_succ, List.get?_cons_succ]
    rw [entryLines_get es 1 i hi]
    rw [rankLine_data_medal]

/-- Witness for C6: rank seven uses the shared glyph, and on a concrete
one-entry snapshot the first rank line opens with the rank-one glyph. -/
theorem medal_glyph_assignment_witness :
    medalFor 7 = "🎖️" ∧
    (∃ out rest, format_leaderboard_message ⟨2025, 6, 7, 8, 9, 10⟩
        (.arr ([(⟨1, none⟩ : Entry)].map Entry.toJson)) = .ok out ∧
      (splitLines out.data).get? (2 + 3 * 0) = some ((medalFor (1 + 0)).data ++ rest)) :=
  ⟨medal_glyph_assignment.2.2.1 7 (by omega),
    medal_glyph_assignment.2.2.2 ⟨2025, 6, 7, 8, 9, 10⟩ [(⟨1, none⟩ : Entry)]
      (by intro e he; fin_cases he; simp [Entry.validName]) 0 (by decide)⟩

/-- Claim C7, counterexample: an entry whose `xUsername` field is
present (non-null) but empty renders `Anonymous`, not the claimed
`"@"`-prefixed display name. -/
theorem username_at_rendering_cex :
    render_username (.obj [("gameScore", Json.num 5), ("xUsername", Json.str "")])
      = .ok "Anonymous" ∧ ("Anonymous" : String) ≠ "@" :=
  ⟨rfl, by decide⟩

/-- Claim C7 (amended): an entry with an absent, null, or *empty*
display name renders the literal `Anonymous`; an entry with a non-empty
display name renders it prefixed by `@`.  The rendering used by the
formatter is exactly `displayNameRendering`, and the name line of a
one-entry snapshot carries it. -/
theorem username_at_rendering (e : Entry) :
    render_username e.toJson = .ok (displayNameRendering e.xUsername) ∧
    (∀ s, e.xUsername = some (some s) → s ≠ "" →
      displayNameRendering e.xUsername = "@" ++ s) ∧
    (e.xUsername = none ∨ e.xUsername = some none ∨ e.xUsername = some (some "") →
      displayNameRendering e.xUsername = "Anonymous") ∧
    (∀ now : UTCTime, e.validName →
      ∃ out, format_leaderboard_message now (.arr ([e].map Entry.toJson)) = .ok out ∧
        (splitLines out.data).get? 3
          = some ("   " ++ displayNameRendering e.xUsername).data) := by
  refine ⟨render_username_toJson e, ?_, ?_, ?_⟩
  · intro s hs hne
    rw [hs]
    simp [displayNameRendering, hne]
  · rintro (h | h | h) <;> rw [h] <;> rfl
  · intro now hv
    refine ⟨HEADER ++ entryBlocks [e] 1 ++ footerLine now, format_message_toJson now [e], ?_⟩
    rw [format_message_splitLines now [e] (by intro e2 he2; rw [List.mem_singleton.mp he2]; exact hv)]
    rfl

/-- Witness for C7 at concrete entries: a non-empty name gets the `@`
prefix, a null name and an empty name render `Anonymous`, and the name
line shows up in a concrete formatted message. -/
theorem username_at_rendering_witness :
    displayNameRendering (some (some "carol")) = "@" ++ "carol" ∧
    displayNameRendering (some none) = "Anonymous" ∧
    displayNameRendering (some (some "")) = "Anonymous" ∧
    (∃ out, format_leaderboard_message ⟨2025, 2, 3, 4, 5, 6⟩
        (.arr ([(⟨9, some (some "carol")⟩ : Entry)].map Entry.toJson)) = .ok out ∧
      (splitLines out.data).get? 3
        = some ("   " ++ displayNameRendering (some (some "carol"))).data) :=
  ⟨(username_at_rendering ⟨9, some (some "carol")⟩).2.1 "carol" rfl (by decide),
    (username_at_rendering ⟨9, some none⟩).2.2.1 (.inr (.inl rfl)),
    (username_at_rendering ⟨9, some (some "")⟩).2.2.1 (.inr (.inr rfl)),
    (username_at_rendering ⟨9, some (some "carol")⟩).2.2.2 ⟨2025, 2, 3, 4, 5, 6⟩
      (by simp [Entry.validName])⟩

/-- Claim C10: when the `xUsername` field is present but equal to the
empty string — a truthiness test, not a presence test — the rendering is
the literal `Anonymous`, not `"@"` followed by nothing. -/
theorem empty_username_renders_anonymous (fs : List (String × Json))
    (h : jlookup fs "xUsername" = some (Json.str "")) :
    render_username (.obj fs) = .ok "Anonymous" ∧
      ("Anonymous" : String) ≠ "@" ++ "" := by
  constructor
  · unfold render_username
    simp [dictGet, h, Bind.bind, Except.bind, truthy, Pure.pure, Except.pure]
  · decide

/-- Witness for C10 at a concrete entry with `xUsername = ""`. -/
theorem empty_username_renders_anonymous_witness :
    render_username (.obj [("gameScore", Json.num 1), ("xUsername", Json.str "")])
      = .ok "Anonymous" ∧ ("Anonymous" : String) ≠ "@" ++ "" :=
  empty_username_renders_anonymous
    [("gameScore", Json.num 1), ("xUsername", Json.str "")] rfl

/-! ## Publisher lemmas -/

/-- The fallback branch always makes exactly its one call, whatever the
collaborator does. -/
theorem send_fallback_eq (target : String) (sr : SendCall → Bool) :
    send_fallback target sr = [⟨target, ERROR_MESSAGE, none⟩] := by
  show (match send_message sr ⟨target, ERROR_MESSAGE, none⟩ with
    | .ok _ => ([⟨target, ERROR_MESSAGE, none⟩] : List SendCall)
    | .error _ => ([⟨target, ERROR_MESSAGE, none⟩] : List SendCall))
      = ([⟨target, ERROR_MESSAGE, none⟩] : List SendCall)
  cases send_message sr ⟨target, ERROR_MESSAGE, none⟩ <;> rfl

/-- When the fetch comes back absent, the publisher makes exactly one
fallback call, in plain rendering, and completes. -/
theorem send_leaderboard_absent (CHAT : String) (c : Option String) (env : FetchEnv)
    (now : UTCTime) (sr : SendCall → Bool) (h : fetch_leaderboard env = .ok none) :
    send_leaderboard CHAT c env now sr
      = .ok [⟨resolve_target CHAT c, ERROR_MESSAGE, none⟩] := by
  unfold send_leaderboard
  rw [h]
  show Except.ok (send_fallback (resolve_target CHAT c) sr) = _
  rw [send_fallback_eq]

/-- When the fetch comes back with a snapshot that is falsy (possible
only for a degenerate body), the publisher also takes the fallback
branch. -/
theorem send_leaderboard_falsy (CHAT : String) (c : Option String) (env : FetchEnv)
    (now : UTCTime) (sr : SendCall → Bool) (s : Json)
    (h : fetch_leaderboard env = .ok (some s)) (ht : truthy s = false) :
    send_leaderboard CHAT c env now sr
      = .ok [⟨resolve_target CHAT c, ERROR_MESSAGE, none⟩] := by
  unfold send_leaderboard
  rw [h]
  show (if truthy s then _ else pure (send_fallback (resolve_target CHAT c) sr)) = _
  rw [ht]
  show Except.ok (send_fallback (resolve_target CHAT c) sr) = _
  rw [send_fallback_eq]

/-- When the fetch delivers a well-formed non-empty snapshot, the
publisher makes exactly one rich-markup call carrying the formatted
message, and completes whatever the collaborator does. -/
theorem send_leaderboard_snapshot (CHAT : String) (c : Option String) (env : FetchEnv)
    (now : UTCTime) (sr : SendCall → Bool) (es : List Entry) (hne : es ≠ [])
    (h : fetch_leaderboard env = .ok (some (.arr (es.map Entry.toJson)))) :
    send_leaderboard CHAT c env now sr
      = .ok [⟨resolve_target CHAT c,
          HEADER ++ entryBlocks es 1 ++ footerLine now, some "HTML"⟩] := by
  have ht : truthy (Json.arr (es.map Entry.toJson)) = true := by
    cases es with
    | nil => exact absurd rfl hne
    | cons e es => rfl
  unfold send_leaderboard
  rw [h]
  show (if truthy (Json.arr (es.map Entry.toJson)) then (do
      let message ← format_leaderboard_message now (.arr (es.map Entry.toJson))
      let call : SendCall := ⟨resolve_target CHAT c, message, some "HTML"⟩
      match send_message sr call with
      | .ok _ => pure [call]
      | .error _ => pure [call] : Except PyErr (List SendCall))
    else _) = _
  rw [ht]
  simp only [if_pos rfl]
  rw [format_message_toJson]
  show (match send_message sr ⟨resolve_target CHAT c,
      HEADER ++ entryBlocks es 1 ++ footerLine now, some "HTML"⟩ with
    | .ok _ => pure [⟨resolve_target CHAT c,
        HEADER ++ entryBlocks es 1 ++ footerLine now, some "HTML"⟩]
    | .error _ => pure [⟨resolve_target CHAT c,
        HEADER ++ entryBlocks es 1 ++ footerLine now, some "HTML"⟩] : Except PyErr (List SendCall)) = _
  cases send_message sr ⟨resolve_target CHAT c,
      HEADER ++ entryBlocks es 1 ++ footerLine now, some "HTML"⟩ <;> rfl

/-! ## Theorems about the publisher -/

/-- Claim C1, counterexample: `format_leaderboard_message` is called
outside both `try` blocks (src/bot.py line 71), so a fetched snapshot
whose entry lacks `gameScore` makes `send_leaderboard` raise a
`KeyError` that escapes the publish boundary. -/
theorem publish_never_raises_cex :
    send_leaderboard "chat" none (.response 200 (some (.obj
      [("success", Json.bool true), ("topScores", Json.arr [Json.obj []])])))
      ⟨2025, 1, 1, 0, 0, 0⟩ (fun _ => false) = .error (.keyError "gameScore") := rfl

/-- Claim C1 (amended): for every fetch outcome that is absent or a
well-formed snapshot (a list of entries with a numeric `gameScore` and
an absent, null or string `xUsername`), and for *every* behaviour of the
messaging collaborator — including raising on every call —
`send_leaderboard` completes without raising; send failures are caught
and logged only. -/
theorem publish_never_raises (CHAT : String) (c : Option String) (env : FetchEnv)
    (now : UTCTime) (sr : SendCall → Bool)
    (h : ∀ s, fetch_leaderboard env = .ok (some s) →
      ∃ es : List Entry, s = .arr (es.map Entry.toJson)) :
    ∃ tr, send_leaderboard CHAT c env now sr = .ok tr := by
  have hspec := fetch_eq_spec env
  cases hv : specFetchResult env with
  | none =>
    rw [hv] at hspec
    exact ⟨_, send_leaderboard_absent CHAT c env now sr hspec⟩
  | some s =>
    rw [hv] at hspec
    obtain ⟨es, rfl⟩ := h s hspec
    cases es with
    | nil =>
      exact ⟨_, send_leaderboard_falsy CHAT c env now sr _ hspec rfl⟩
    | cons e es =>
      exact ⟨_, send_leaderboard_snapshot CHAT c env now sr (e :: es) (by simp) hspec⟩

/-- Witness for C1: a run in which the fetch succeeds and the
collaborator raises on every call still completes normally. -/
theorem publish_never_raises_witness :
    ∃ tr, send_leaderboard "chat" none (.response 200 (some (.obj
      [("success", Json.bool true),
       ("topScores", Json.arr [Entry.toJson ⟨10, none⟩])])))
      ⟨2025, 1, 1, 0, 0, 0⟩ (fun _ => true) = .ok tr :=
  publish_never_raises "chat" none (.response 200 (some (.obj
      [("success", Json.bool true),
       ("topScores", Json.arr [Entry.toJson ⟨10, none⟩])])))
    ⟨2025, 1, 1, 0, 0, 0⟩ (fun _ => true)
    (by
      intro s hs
      have h2 : some (Json.arr [Entry.toJson ⟨10, none⟩]) = some s := Except.ok.inj hs
      exact ⟨[⟨10, none⟩], (Option.some.inj h2).symm⟩)

/-- Claim C5, counterexample: a fetch outcome carrying a snapshot whose
score is a string makes the formatter raise before any send, so that
run makes no send-message call at all — `publish` does not always send
exactly once. -/
theorem publish_one_send_cex :
    send_leaderboard "chat" none (.response 200 (some (.obj
      [("success", Json.bool true), ("topScores", Json.arr
        [Json.obj [("gameScore", Json.str "x"), ("xUsername", Json.str "y")]])])))
      ⟨2025, 1, 1, 0, 0, 0⟩ (fun _ => false) = .error .valueError := rfl

/-- Claim C5 (amended): for every fetch outcome that is absent or a
well-formed non-empty snapshot, `send_leaderboard` makes exactly one
send-message call: on absent, the fixed fallback string with plain
rendering (`parse_mode = none`); on a snapshot, the formatted message
with rich rendering (`parse_mode = "HTML"`), and that message contains
every entry's comma-grouped score and rendered display name. -/
theorem publish_one_send :
    (∀ (CHAT : String) (c : Option String) (env : FetchEnv) (now : UTCTime)
       (sr : SendCall → Bool),
      fetch_leaderboard env = .ok none →
      send_leaderboard CHAT c env now sr
        = .ok [⟨resolve_target CHAT c, ERROR_MESSAGE, none⟩]) ∧
    (∀ (CHAT : String) (c : Option String) (env : FetchEnv) (now : UTCTime)
       (sr : SendCall → Bool) (es : List Entry), es ≠ [] →
      fetch_leaderboard env = .ok (some (.arr (es.map Entry.toJson))) →
      ∃ msg, send_leaderboard CHAT c env now sr
          = .ok [⟨resolve_target CHAT c, msg, some "HTML"⟩] ∧
        ∀ e ∈ es, containsStr msg (commaFormat e.gameScore) ∧
          containsStr msg (displayNameRendering e.xUsername)) := by
  constructor
  · exact send_leaderboard_absent
  · intro CHAT c env now sr es hne h
    refine ⟨HEADER ++ entryBlocks es 1 ++ footerLine now,
      send_leaderboard_snapshot CHAT c env now sr es hne h, ?_⟩
    intro e he
    constructor
    · exact containsStr_append_right _ _ _ (containsStr_append_left _ _ _
        (entryBlocks_contains es 1 e he _ (fun k => entryBlock_contains_score k e)))
    · exact containsStr_append_right _ _ _ (containsStr_append_left _ _ _
        (entryBlocks_contains es 1 e he _ (fun k => entryBlock_contains_name k e)))

/-- Witness for C5: one concrete absent run and one concrete snapshot
run, the collaborator raising in both. -/
theorem publish_one_send_witness :
    send_leaderboard "c0" none .netError ⟨2025, 3, 4, 5, 6, 7⟩ (fun _ => true)
      = .ok [⟨resolve_target "c0" none, ERROR_MESSAGE, none⟩] ∧
    (∃ msg, send_leaderboard "c0" none (.response 200 (some (.obj
        [("success", Json.bool true),
         ("topScores", Json.arr ([(⟨2500, some (some "dan")⟩ : Entry)].map Entry.toJson))])))
        ⟨2025, 3, 4, 5, 6, 7⟩ (fun _ => true)
        = .ok [⟨resolve_target "c0" none, msg, some "HTML"⟩] ∧
      ∀ e ∈ [(⟨2500, some (some "dan")⟩ : Entry)],
        containsStr msg (commaFormat e.gameScore) ∧
        containsStr msg (displayNameRendering e.xUsername)) :=
  ⟨publish_one_send.1 "c0" none .netError ⟨2025, 3, 4, 5, 6, 7⟩ (fun _ => true) rfl,
    publish_one_send.2 "c0" none (.response 200 (some (.obj
        [("success", Json.bool true),
         ("topScores", Json.arr ([(⟨2500, some (some "dan")⟩ : Entry)].map Entry.toJson))])))
      ⟨2025, 3, 4, 5, 6, 7⟩ (fun _ => true) [⟨2500, some (some "dan")⟩] (by simp) rfl⟩

/-- Claim C8, counterexample: `chat_id or CHAT_ID` tests truthiness, so
an explicitly given *empty* identifier is discarded in favour of the
default: the single call of this run goes to `"123"`, not to the given
`""`. -/
theorem publish_target_cex :
    send_leaderboard "123" (some "") .netError ⟨2025, 1, 1, 0, 0, 0⟩ (fun _ => false)
      = .ok [⟨"123", ERROR_MESSAGE, none⟩] ∧ ("123" : String) ≠ "" :=
  ⟨rfl, by decide⟩

/-- Claim C8 (amended): the effective target is the explicitly given
identifier when a *non-empty* one is given, and the process-wide default
`CHAT_ID` when none (or an empty one) is given; every call a publish run
makes goes to that resolved target.  (`CHAT_ID` is modelled as an
immutable parameter, as the source only ever reads the module constant
after startup.) -/
theorem publish_target :
    (∀ CHAT : String, resolve_target CHAT none = CHAT) ∧
    (∀ CHAT c : String, c ≠ "" → resolve_target CHAT (some c) = c) ∧
    (∀ CHAT : String, resolve_target CHAT (some "") = CHAT) ∧
    (∀ (CHAT : String) (c : Option String) (env : FetchEnv) (now : UTCTime)
       (sr : SendCall → Bool) (tr : List SendCall),
      send_leaderboard CHAT c env now sr = .ok tr →
      ∀ call ∈ tr, call.chat_id = resolve_target CHAT c) := by
  refine ⟨fun CHAT => rfl, fun CHAT c hc => by simp [resolve_target, hc], fun CHAT => rfl, ?_⟩
  intro CHAT c env now sr tr h
  have hspec := fetch_eq_spec env
  cases hv : specFetchResult env with
  | none =>
    rw [hv] at hspec
    rw [send_leaderboard_absent CHAT c env now sr hspec] at h
    obtain rfl := (Except.ok.inj h).symm
    intro call hc
    rw [List.mem_singleton.mp hc]
  | some s =>
    rw [hv] at hspec
    cases ht : truthy s with
    | false =>
      rw [send_leaderboard_falsy CHAT c env now sr s hspec ht] at h
      obtain rfl := (Except.ok.inj h).symm
      intro call hc
      rw [List.mem_singleton.mp hc]
    | true =>
      unfold send_leaderboard at h
      rw [hspec] at h
      simp only [Bind.bind, Except.bind, ht, if_true] at h
      cases hf : format_leaderboard_message now s with
      | error e =>
        rw [hf] at h
        exact absurd h (by simp)
      | ok msg =>
        rw [hf] at h
        have h2 : (match send_message sr ⟨resolve_target CHAT c, msg, some "HTML"⟩ with
            | .ok _ => (pure [⟨resolve_target CHAT c, msg, some "HTML"⟩] : Except PyErr (List SendCall))
            | .error _ => pure [⟨resolve_target CHAT c, msg, some "HTML"⟩]) = .ok tr := h
        have h3 : Except.ok [(⟨resolve_target CHAT c, msg, some "HTML"⟩ : SendCall)]
            = Except.ok (ε := PyErr) tr := by
          cases hsm : send_message sr ⟨resolve_target CHAT c, msg, some "HTML"⟩ with
          | ok u => rw [hsm] at h2; exact h2
          | error e2 => rw [hsm] at h2; exact h2
        obtain rfl := (Except.ok.inj h3).symm
        intro call hc
        rw [List.mem_singleton.mp hc]

/-- Witness for C8: a non-empty explicit identifier is used as given,
and the single call of a concrete default-channel run goes to the
resolved target. -/
theorem publish_target_witness :
    resolve_target "default" (some "explicit") = "explicit" ∧
    (∀ call ∈ ([⟨resolve_target "default" none, ERROR_MESSAGE, none⟩] : List SendCall),
      call.chat_id = resolve_target "default" (none : Option String)) :=
  ⟨publish_target.2.1 "default" "explicit" (by decide),
    publish_target.2.2.2 "default" none .netError ⟨2025, 1, 1, 0, 0, 0⟩
      (fun _ => false) _ rfl⟩
